import Mathlib

/-!
Verification development for the `localkms` key-management core of
aries-framework-go (`pkg/kms/localkms/localkms.go`).

The Go code orchestrates: a key-type template catalog (`getKeyTemplate`),
envelope-encrypted persistence of tink keysets (`storeKeySet` / `getKeySet`),
and the `Create` / `Get` / `Rotate` / `ExportPubKeyBytes` operations of the
`LocalKMS` service.

The external collaborators (the tink keyset library, the secret-lock-backed
envelope AEAD, the storage reader/writer of this package which are declared
but whose sources are not part of this development's source set, and the
`pkg/kms` key-type string constants) are modelled from the specification:
each such definition carries a doc comment saying so.  Everything else is a
direct shallow embedding of the Go source.

Storage effects are made explicit: every operation returns, besides its
result, the post storage state and the ordered list of storage events
(get / put / delete) it performed, so that sequencing, atomicity and
frame claims can be stated.
-/

/-- Error kinds surfaced by the KMS operations.  The Go code propagates
`error` values; the constructors here name the distinct failure causes the
code can produce (missing key type check in `Create`, the `default` branch of
`getKeyTemplate`, storage read/write/delete failures, the keyset decryption
failure of `keyset.Read`, absence of a stored blob, the non-asymmetric-key
failure of `Handle.Public`, and key-generation failure of the crypto
library). -/
inductive KMSError where
  | missingKeyType
  | unsupportedKeyType
  | storeReadFailed
  | storeWriteFailed
  | storeDeleteFailed
  | notFound
  | decryptionFailed
  | notAsymmetricKey
  | keyGenFailed
deriving DecidableEq, Repr

/-- Output framing of a tink key template: `tink` adds algorithm-identifying
prefix metadata to primitive outputs, `raw` (the "WithoutPrefix"/"NoPrefix"
templates) omits it. -/
inductive Framing where
  | tink
  | raw
deriving DecidableEq, Repr

/-- A key template: the tink type URL of the key kind, a numeric parameter
(AES key size in bits, ECDSA curve size, HMAC tag size, Ed25519 curve size)
and the output framing.  These fields distinguish all templates returned by
`getKeyTemplate`. -/
structure KeyTemplate where
  typeUrl : String
  param : Nat
  framing : Framing
deriving DecidableEq, Repr

def aesGCMTypeURL : String := "type.googleapis.com/google.crypto.tink.AesGcmKey"

def chaCha20Poly1305TypeURL : String :=
  "type.googleapis.com/google.crypto.tink.ChaCha20Poly1305Key"

def xChaCha20Poly1305TypeURL : String :=
  "type.googleapis.com/google.crypto.tink.XChaCha20Poly1305Key"

def ecdsaPrivateTypeURL : String :=
  "type.googleapis.com/google.crypto.tink.EcdsaPrivateKey"

def ecdsaPublicTypeURL : String :=
  "type.googleapis.com/google.crypto.tink.EcdsaPublicKey"

def ed25519PrivateTypeURL : String :=
  "type.googleapis.com/google.crypto.tink.Ed25519PrivateKey"

def ed25519PublicTypeURL : String :=
  "type.googleapis.com/google.crypto.tink.Ed25519PublicKey"

def hmacTypeURL : String := "type.googleapis.com/google.crypto.tink.HmacKey"

/-- Modelled from the spec: the tink template `aead.AES128GCMKeyTemplate`
(prefixed AES-128-GCM); the tink library is an external collaborator. -/
def AES128GCMKeyTemplate : KeyTemplate := ⟨aesGCMTypeURL, 128, .tink⟩

/-- Modelled from the spec: the tink template `aead.AES256GCMKeyTemplate`
(prefixed AES-256-GCM). -/
def AES256GCMKeyTemplate : KeyTemplate := ⟨aesGCMTypeURL, 256, .tink⟩

/-- Modelled from the spec: the tink template
`aead.AES256GCMNoPrefixKeyTemplate` (raw AES-256-GCM, for keys not generated
by tink). -/
def AES256GCMNoPrefixKeyTemplate : KeyTemplate := ⟨aesGCMTypeURL, 256, .raw⟩

/-- Modelled from the spec: `aead.ChaCha20Poly1305KeyTemplate`. -/
def ChaCha20Poly1305KeyTemplate : KeyTemplate := ⟨chaCha20Poly1305TypeURL, 256, .tink⟩

/-- Modelled from the spec: `aead.XChaCha20Poly1305KeyTemplate`. -/
def XChaCha20Poly1305KeyTemplate : KeyTemplate := ⟨xChaCha20Poly1305TypeURL, 256, .tink⟩

/-- Modelled from the spec: `signature.ECDSAP256KeyWithoutPrefixTemplate`
(raw framing). -/
def ECDSAP256KeyWithoutPrefixTemplate : KeyTemplate := ⟨ecdsaPrivateTypeURL, 256, .raw⟩

/-- Modelled from the spec: `signature.ECDSAP384KeyWithoutPrefixTemplate`. -/
def ECDSAP384KeyWithoutPrefixTemplate : KeyTemplate := ⟨ecdsaPrivateTypeURL, 384, .raw⟩

/-- Modelled from the spec: `signature.ECDSAP521KeyWithoutPrefixTemplate`. -/
def ECDSAP521KeyWithoutPrefixTemplate : KeyTemplate := ⟨ecdsaPrivateTypeURL, 521, .raw⟩

/-- Modelled from the spec: `signature.ED25519KeyWithoutPrefixTemplate`. -/
def ED25519KeyWithoutPrefixTemplate : KeyTemplate := ⟨ed25519PrivateTypeURL, 255, .raw⟩

/-- Modelled from the spec: `mac.HMACSHA256Tag256KeyTemplate` (the test file
pins its type URL to `type.googleapis.com/google.crypto.tink.HmacKey`). -/
def HMACSHA256Tag256KeyTemplate : KeyTemplate := ⟨hmacTypeURL, 256, .tink⟩

/-- Modelled from the spec: the `kms.KeyType` string constant
`kms.AES128GCMType` of `pkg/kms` (the test file uses the literal
`"AES128GCM"` interchangeably with the constant). -/
def AES128GCMType : String := "AES128GCM"

/-- Modelled from the spec: `kms.AES256GCMNoPrefixType` of `pkg/kms`. -/
def AES256GCMNoPrefixType : String := "AES256GCMNoPrefix"

/-- Modelled from the spec: `kms.AES256GCMType` of `pkg/kms`. -/
def AES256GCMType : String := "AES256GCM"

/-- Modelled from the spec: `kms.ChaCha20Poly1305Type` of `pkg/kms`. -/
def ChaCha20Poly1305Type : String := "ChaCha20Poly1305"

/-- Modelled from the spec: `kms.XChaCha20Poly1305Type` of `pkg/kms`. -/
def XChaCha20Poly1305Type : String := "XChaCha20Poly1305"

/-- Modelled from the spec: `kms.ECDSAP256Type` of `pkg/kms`. -/
def ECDSAP256Type : String := "ECDSAP256"

/-- Modelled from the spec: `kms.ECDSAP384Type` of `pkg/kms`. -/
def ECDSAP384Type : String := "ECDSAP384"

/-- Modelled from the spec: `kms.ECDSAP521Type` of `pkg/kms`. -/
def ECDSAP521Type : String := "ECDSAP521"

/-- Modelled from the spec: `kms.ED25519Type` of `pkg/kms`. -/
def ED25519Type : String := "ED25519"

/-- Modelled from the spec: `kms.HMACSHA256Tag256Type` of `pkg/kms`. -/
def HMACSHA256Tag256Type : String := "HMACSHA256Tag256"

/-- Embedding of `getKeyTemplate` (localkms.go): the switch over the ten
`kms.KeyType` constants, `default` returning the "key type unrecognized"
error. -/
def getKeyTemplate (keyType : String) : Except KMSError KeyTemplate :=
  if keyType = AES128GCMType then .ok AES128GCMKeyTemplate
  else if keyType = AES256GCMNoPrefixType then .ok AES256GCMNoPrefixKeyTemplate
  else if keyType = AES256GCMType then .ok AES256GCMKeyTemplate
  else if keyType = ChaCha20Poly1305Type then .ok ChaCha20Poly1305KeyTemplate
  else if keyType = XChaCha20Poly1305Type then .ok XChaCha20Poly1305KeyTemplate
  else if keyType = ECDSAP256Type then .ok ECDSAP256KeyWithoutPrefixTemplate
  else if keyType = ECDSAP384Type then .ok ECDSAP384KeyWithoutPrefixTemplate
  else if keyType = ECDSAP521Type then .ok ECDSAP521KeyWithoutPrefixTemplate
  else if keyType = ED25519Type then .ok ED25519KeyWithoutPrefixTemplate
  else if keyType = HMACSHA256Tag256Type then .ok HMACSHA256Tag256KeyTemplate
  else .error .unsupportedKeyType

/-- The ten key type tags accepted by `getKeyTemplate`, in source order. -/
def supportedKeyTypes : List String :=
  [AES128GCMType, AES256GCMNoPrefixType, AES256GCMType, ChaCha20Poly1305Type,
   XChaCha20Poly1305Type, ECDSAP256Type, ECDSAP384Type, ECDSAP521Type,
   ED25519Type, HMACSHA256Tag256Type]

/-- One key version inside a keyset, as held by a tink `keyset.Handle`:
the algorithm (type URL, framing, parameter), the numeric key id, and the
key material.  Modelled from the spec: the material is abstracted to a pair
of opaque numbers — `secret` for the private/secret part and `pub` for the
derived public part (meaningful for asymmetric versions only). -/
structure KeyVersion where
  typeUrl : String
  framing : Framing
  param : Nat
  keyId : Nat
  secret : Nat
  pub : Nat
deriving DecidableEq, Repr

/-- Modelled from the spec: a tink `keyset.Handle` — an ordered collection of
key versions together with the id of the primary version. -/
structure Handle where
  versions : List KeyVersion
  primaryKeyId : Nat
deriving DecidableEq, Repr

/-- The number of key versions (primitive entries) of a handle; this is what
`Handle.Primitives()` counts in the tests. -/
def primitiveCount (h : Handle) : Nat :=
  h.versions.length

/-- The algorithm set of a handle: the list of type URLs of its versions. -/
def algSet (h : Handle) : List String :=
  h.versions.map (fun v => v.typeUrl)

/-- Modelled from the spec: fresh key-version generation by the trusted
crypto primitive library, driven by an explicit generator counter `g`:
the new version gets key id `g`, secret material `2*g` and public material
`2*g + 1`. -/
def newVersion (t : KeyTemplate) (g : Nat) : KeyVersion :=
  ⟨t.typeUrl, t.framing, t.param, g, 2 * g, 2 * g + 1⟩

/-- Modelled from the spec: `keyset.NewHandle(template)` — a fresh handle
holding a single primary version generated from the template. -/
def newHandle (t : KeyTemplate) (g : Nat) : Handle × Nat :=
  (⟨[newVersion t g], g⟩, g + 1)

/-- Modelled from the spec: `keyset.Manager.Rotate(template)` followed by
`Manager.Handle()` — appends a freshly generated version of the requested
template to the keyset and makes it primary; the previous versions remain. -/
def rotateHandle (h : Handle) (t : KeyTemplate) (g : Nat) : Handle × Nat :=
  (⟨h.versions ++ [newVersion t g], g⟩, g + 1)

/-- Modelled from the spec: an encrypted keyset blob — the keyset sealed by
the master-key envelope AEAD.  `masterKey` records the master-key URI the
seal is bound to and `intact` models seal integrity (`false` models a
corrupted blob, i.e. any byte flip of the stored bytes). -/
structure Blob where
  masterKey : String
  sealed : Handle
  intact : Bool
deriving DecidableEq, Repr

/-- Modelled from the spec: the keyset codec's `encode` —
`Handle.Write(jsonKeysetWriter, masterKeyEnvAEAD)` seals the handle under
the master-key envelope AEAD. -/
def encode (mk : String) (h : Handle) : Blob :=
  ⟨mk, h, true⟩

/-- Modelled from the spec: the keyset codec's `decode` —
`keyset.Read(jsonKeysetReader, masterKeyEnvAEAD)` verifies the seal before
deserializing; a blob whose seal does not verify (corrupted, or sealed under
a different master key) fails with the decryption error and yields no key
material. -/
def decode (mk : String) (b : Blob) : Except KMSError Handle :=
  if b.intact = true ∧ b.masterKey = mk then .ok b.sealed else .error .decryptionFailed

/-- A storage event: one call to the storage contract, in order. -/
inductive StoreEvent where
  | get (key : String)
  | put (key : String) (value : Blob)
  | del (key : String)
deriving DecidableEq, Repr

/-- Whether a storage event mutates the store. -/
def isMutation : StoreEvent → Bool
  | .get _ => false
  | .put _ _ => true
  | .del _ => true

/-- Failure environment: which storage calls fail (mirroring the mock
store's `ErrGet` / `ErrPut` / delete errors of the test file, per key), and
whether the crypto library's key generation fails. -/
structure StoreEnv where
  getErr : String → Bool
  putErr : String → Bool
  delErr : String → Bool
  keygenErr : Bool

/-- The KMS state: the storage namespace content (an association list from
key identifiers to encrypted keyset blobs) and the fresh-identifier /
fresh-material generator counter. -/
structure KMSState where
  store : List (String × Blob)
  gen : Nat
deriving DecidableEq, Repr

/-- Association-list lookup on the storage content. -/
def lookupB : List (String × Blob) → String → Option Blob
  | [], _ => none
  | (k, v) :: t, id => if k = id then some v else lookupB t id

/-- Association-list removal of a key from the storage content. -/
def eraseB : List (String × Blob) → String → List (String × Blob)
  | [], _ => []
  | (k, v) :: t, id => if k = id then eraseB t id else (k, v) :: eraseB t id

/-- Association-list insertion (storage `Put` overwrite semantics). -/
def insertB (l : List (String × Blob)) (k : String) (v : Blob) :
    List (String × Blob) :=
  (k, v) :: eraseB l k

/-- Modelled from the spec: identifier minting by the storage writer
(`newWriter`, whose source is external to this development): identifiers are
opaque strings, generated fresh on every store operation and never reused —
modelled as a string determined injectively by the generator counter. -/
def mintID (n : Nat) : String :=
  String.mk (List.replicate (n + 1) 'k')

/-- The KMS configuration: the master-key URI bound at construction. -/
structure KMSCtx where
  masterKeyURI : String

/-- Result of one KMS operation: the Go return value, the post state, and
the ordered storage events performed. -/
structure OpResult (α : Type) where
  res : Except KMSError α
  post : KMSState
  events : List StoreEvent

/-- `true` iff the `Except` value is an error. -/
def isErr {α : Type} : Except KMSError α → Bool
  | .error _ => true
  | .ok _ => false

/-- The keystore's DB storage namespace constant of localkms.go. -/
def Namespace : String := "kmsdb"

/-- Embedding of `getKeySet` (localkms.go): read the blob stored under `id`
through the local-storage reader and decrypt it with the master-key envelope
AEAD.  A failing storage read surfaces the read error, an absent entry the
not-found error, and a seal that does not verify the decryption error. -/
def getKeySet (c : KMSCtx) (env : StoreEnv) (s : KMSState) (id : String) :
    OpResult Handle :=
  if env.getErr id then ⟨.error .storeReadFailed, s, [.get id]⟩
  else
    match lookupB s.store id with
    | none => ⟨.error .notFound, s, [.get id]⟩
    | some b =>
      match decode c.masterKeyURI b with
      | .error e => ⟨.error e, s, [.get id]⟩
      | .ok kh => ⟨.ok kh, s, [.get id]⟩

/-- Embedding of `storeKeySet` (localkms.go): encode the handle with the
master-key envelope AEAD and write the blob to storage under a freshly
minted identifier; a failing write propagates the error and leaves the store
unchanged. -/
def storeKeySet (c : KMSCtx) (env : StoreEnv) (s : KMSState) (kh : Handle) :
    OpResult String :=
  let id := mintID s.gen
  let b := encode c.masterKeyURI kh
  if env.putErr id then
    ⟨.error .storeWriteFailed, ⟨s.store, s.gen + 1⟩, [.put id b]⟩
  else
    ⟨.ok id, ⟨insertB s.store id b, s.gen + 1⟩, [.put id b]⟩

/-- Embedding of `Create` (localkms.go): reject the empty key type, resolve
the template, generate a fresh handle from the crypto library, then store it
and return its identifier and handle. -/
def Create (c : KMSCtx) (env : StoreEnv) (s : KMSState) (kt : String) :
    OpResult (String × Handle) :=
  if kt = "" then ⟨.error .missingKeyType, s, []⟩
  else
    match getKeyTemplate kt with
    | .error e => ⟨.error e, s, []⟩
    | .ok t =>
      if env.keygenErr then ⟨.error .keyGenFailed, s, []⟩
      else
        let p := newHandle t s.gen
        let r := storeKeySet c env ⟨s.store, p.2⟩ p.1
        match r.res with
        | .error e => ⟨.error e, r.post, r.events⟩
        | .ok id => ⟨.ok (id, p.1), r.post, r.events⟩

/-- Embedding of `Get` (localkms.go): delegates to `getKeySet`. -/
def Get (c : KMSCtx) (env : StoreEnv) (s : KMSState) (keyID : String) :
    OpResult Handle :=
  getKeySet c env s keyID

/-- Embedding of `Rotate` (localkms.go): load the existing handle via
`getKeySet`, resolve the new template, rotate the keyset through the tink
manager, delete the old blob, then encode and store the updated handle under
a freshly minted identifier. -/
def Rotate (c : KMSCtx) (env : StoreEnv) (s : KMSState) (kt : String)
    (keyID : String) : OpResult (String × Handle) :=
  let r1 := getKeySet c env s keyID
  match r1.res with
  | .error e => ⟨.error e, s, r1.events⟩
  | .ok kh =>
    match getKeyTemplate kt with
    | .error e => ⟨.error e, s, r1.events⟩
    | .ok t =>
      if env.keygenErr then ⟨.error .keyGenFailed, s, r1.events⟩
      else
        let p := rotateHandle kh t s.gen
        if env.delErr keyID then
          ⟨.error .storeDeleteFailed, ⟨s.store, p.2⟩, r1.events ++ [.del keyID]⟩
        else
          let r2 := storeKeySet c env ⟨eraseB s.store keyID, p.2⟩ p.1
          match r2.res with
          | .error e => ⟨.error e, r2.post, r1.events ++ [.del keyID] ++ r2.events⟩
          | .ok nid => ⟨.ok (nid, p.1), r2.post, r1.events ++ [.del keyID] ++ r2.events⟩

/-- A public key version: the public projection of an asymmetric key
version, carrying no `secret` field. -/
structure PubVersion where
  typeUrl : String
  framing : Framing
  param : Nat
  keyId : Nat
  pub : Nat
deriving DecidableEq, Repr

/-- A public keyset handle, as produced by `Handle.Public()`. -/
structure PubHandle where
  versions : List PubVersion
  primaryKeyId : Nat
deriving DecidableEq, Repr

/-- Whether a type URL is a private asymmetric key kind. -/
def isAsymmetricURL (u : String) : Bool :=
  u == ecdsaPrivateTypeURL || u == ed25519PrivateTypeURL

/-- The public type URL corresponding to a private asymmetric type URL. -/
def pubTypeURL (u : String) : String :=
  if u = ecdsaPrivateTypeURL then ecdsaPublicTypeURL
  else if u = ed25519PrivateTypeURL then ed25519PublicTypeURL
  else u

/-- The public projection of a handle: every version projected to its public
part, the secret material dropped. -/
def pubProject (h : Handle) : PubHandle :=
  ⟨h.versions.map (fun v => ⟨pubTypeURL v.typeUrl, v.framing, v.param, v.keyId, v.pub⟩),
   h.primaryKeyId⟩

/-- Modelled from the spec: `Handle.Public()` of the tink library — requires
every version to be a private asymmetric key and returns the public
projection, failing otherwise with the non-asymmetric-key error. -/
def publicHandle (h : Handle) : Except KMSError PubHandle :=
  if h.versions.all (fun v => isAsymmetricURL v.typeUrl) then .ok (pubProject h)
  else .error .notAsymmetricKey

/-- Modelled from the spec: serialization of a public keyset by the public
keyset writer (`WriteWithNoSecrets` through `NewWriter`, external to this
development): a byte form built from the public projection only; it is never
empty. -/
def serializePub (ph : PubHandle) : List Nat :=
  ph.primaryKeyId ::
    ph.versions.foldr (fun v acc => v.keyId :: v.param :: v.pub :: acc) []

/-- Embedding of `ExportPubKeyBytes` (localkms.go): load the handle for
`id`, require it to be an asymmetric private keyset, and serialize its
public projection without secret material. -/
def ExportPubKeyBytes (c : KMSCtx) (env : StoreEnv) (s : KMSState)
    (id : String) : OpResult (List Nat) :=
  let r := getKeySet c env s id
  match r.res with
  | .error e => ⟨.error e, s, r.events⟩
  | .ok kh =>
    match publicHandle kh with
    | .error e => ⟨.error e, s, r.events⟩
    | .ok ph => ⟨.ok (serializePub ph), s, r.events⟩

/-! ## Helper lemmas -/

theorem lookupB_eraseB_self (l : List (String × Blob)) (k : String) :
    lookupB (eraseB l k) k = none := by
  induction l with
  | nil => rfl
  | cons p t ih =>
    obtain ⟨a, b⟩ := p
    by_cases h : a = k
    · simp [eraseB, h, ih]
    · simp [eraseB, lookupB, h, ih]

theorem lookupB_eraseB_ne (l : List (String × Blob)) {k id : String}
    (h : k ≠ id) : lookupB (eraseB l k) id = lookupB l id := by
  induction l with
  | nil => rfl
  | cons p t ih =>
    obtain ⟨a, b⟩ := p
    by_cases ha : a = k
    · subst ha
      simp [eraseB, lookupB, h, ih]
    · by_cases hb : a = id
      · subst hb
        simp [eraseB, lookupB, ha]
      · simp [eraseB, lookupB, ha, hb, ih]

theorem mintID_inj {m n : Nat} (h : mintID m = mintID n) : m = n := by
  have hd : List.replicate (m + 1) 'k' = List.replicate (n + 1) 'k' :=
    congrArg String.data h
  have hl : m + 1 = n + 1 := by
    simpa using congrArg List.length hd
  omega

theorem getKeySet_events (c : KMSCtx) (env : StoreEnv) (s : KMSState)
    (id : String) : (getKeySet c env s id).events = [.get id] := by
  unfold getKeySet
  repeat' split
  all_goals rfl

theorem getKeySet_post (c : KMSCtx) (env : StoreEnv) (s : KMSState)
    (id : String) : (getKeySet c env s id).post = s := by
  unfold getKeySet
  repeat' split
  all_goals rfl

/-! ## C3: the key type tag catalog -/

/-- C3 counterexample: the claim says the catalog is exactly nine tags with
two AES-GCM framings; in the code `getKeyTemplate` accepts ten pairwise
distinct tags, among them three distinct AES-GCM templates (128-bit
prefixed, 256-bit prefixed, 256-bit raw). -/
theorem catalog_has_ten_tags :
    getKeyTemplate AES128GCMType = .ok AES128GCMKeyTemplate
    ∧ getKeyTemplate AES256GCMType = .ok AES256GCMKeyTemplate
    ∧ getKeyTemplate AES256GCMNoPrefixType = .ok AES256GCMNoPrefixKeyTemplate
    ∧ AES128GCMKeyTemplate.typeUrl = aesGCMTypeURL
    ∧ AES256GCMKeyTemplate.typeUrl = aesGCMTypeURL
    ∧ AES256GCMNoPrefixKeyTemplate.typeUrl = aesGCMTypeURL
    ∧ AES128GCMKeyTemplate ≠ AES256GCMKeyTemplate
    ∧ AES128GCMKeyTemplate ≠ AES256GCMNoPrefixKeyTemplate
    ∧ AES256GCMKeyTemplate ≠ AES256GCMNoPrefixKeyTemplate
    ∧ supportedKeyTypes.Nodup
    ∧ supportedKeyTypes.length = 10
    ∧ supportedKeyTypes.all (fun t => !isErr (getKeyTemplate t)) = true := by
  refine ⟨rfl, rfl, rfl, rfl, rfl, rfl, ?_, ?_, ?_, ?_, rfl, rfl⟩ <;> decide

/-- C3 (amended): template lookup succeeds precisely for the ten tags of
`supportedKeyTypes` — three AES-GCM variants (128-bit prefixed, 256-bit
prefixed, 256-bit raw), ChaCha20-Poly1305, XChaCha20-Poly1305, three ECDSA
no-prefix curve variants, one EdDSA no-prefix variant and one HMAC-tag
variant — mapping each tag deterministically to exactly one template, and
rejects every other tag including the empty tag. -/
theorem key_template_catalog_amended (t : String) :
    (isErr (getKeyTemplate t) = false ↔ t ∈ supportedKeyTypes)
    ∧ getKeyTemplate "" = .error .unsupportedKeyType := by
  constructor
  · unfold getKeyTemplate supportedKeyTypes
    split_ifs with h1 h2 h3 h4 h5 h6 h7 h8 h9 h10 <;> simp_all [isErr]
  · rfl

/-- C3 witness: the amended catalog theorem applied at the concrete tag
`"ED25519"`. -/
theorem key_template_catalog_amended_witness :
    isErr (getKeyTemplate "ED25519") = false :=
  (key_template_catalog_amended "ED25519").1.mpr (by decide)

/-! ## Concrete fixtures -/

/-- A concrete KMS configuration for witnesses. -/
def cfg0 : KMSCtx := ⟨"local-lock://master/key"⟩

/-- An environment in which no storage or key-generation call fails. -/
def env0 : StoreEnv := ⟨fun _ => false, fun _ => false, fun _ => false, false⟩

/-- An environment in which every storage put fails. -/
def envPutFail : StoreEnv := ⟨fun _ => false, fun _ => true, fun _ => false, false⟩

/-- An environment in which every storage delete fails. -/
def envDelFail : StoreEnv := ⟨fun _ => false, fun _ => false, fun _ => true, false⟩

/-- The empty KMS state. -/
def st0 : KMSState := ⟨[], 0⟩

/-- The handle created by `Create cfg0 env0 st0 "AES128GCM"`. -/
def khA : Handle := (newHandle AES128GCMKeyTemplate 0).1

/-- The KMS state after `Create cfg0 env0 st0 "AES128GCM"`: one keyset
stored under `mintID 1`. -/
def st1 : KMSState := ⟨[(mintID 1, encode cfg0.masterKeyURI khA)], 2⟩

/-! ## C9: Get is a pure read -/

/-- C9: for every identifier and every storage state, `Get` — whether it
succeeds or fails — performs no put and no delete on the storage namespace
and leaves the state identical. -/
theorem get_pure_read (c : KMSCtx) (env : StoreEnv) (s : KMSState)
    (id : String) :
    (Get c env s id).post = s
    ∧ (Get c env s id).events.all (fun e => !isMutation e) = true := by
  constructor
  · exact getKeySet_post c env s id
  · show (getKeySet c env s id).events.all (fun e => !isMutation e) = true
    rw [getKeySet_events]
    rfl

/-! ## C4: Create is atomic on failure -/

/-- C4: whenever `Create` fails — empty tag, unrecognized tag, key
generation failure, or storage write failure — the storage namespace is left
exactly as before the call; an empty or unrecognized tag is rejected before
any storage event occurs, the empty tag with the missing-key-type error. -/
theorem create_atomic_on_failure (c : KMSCtx) (env : StoreEnv) (s : KMSState)
    (kt : String) :
    (isErr (Create c env s kt).res = true → (Create c env s kt).post.store = s.store)
    ∧ (isErr (getKeyTemplate kt) = true → (Create c env s kt).events = [])
    ∧ (kt = "" → (Create c env s kt).res = .error .missingKeyType) := by
  unfold Create storeKeySet
  by_cases hk : kt = ""
  · simp [hk, isErr]
  · cases hgt : getKeyTemplate kt with
    | error e => simp [hk, hgt, isErr]
    | ok t =>
      by_cases hkg : env.keygenErr
      · simp [hk, hgt, hkg, isErr]
      · by_cases hput : env.putErr (mintID (s.gen + 1))
        · simp [hk, hgt, hkg, isErr, newHandle, hput]
        · simp [hk, hgt, hkg, isErr, newHandle, hput]

/-- C4 witness: the atomicity theorem applied to an unrecognized tag, the
empty tag, and a failing storage write over concrete states. -/
theorem create_atomic_on_failure_witness :
    (Create cfg0 env0 st0 "unsupported").events = []
    ∧ (Create cfg0 env0 st0 "").res = .error .missingKeyType
    ∧ (Create cfg0 envPutFail st0 "AES128GCM").post.store = st0.store :=
  ⟨(create_atomic_on_failure cfg0 env0 st0 "unsupported").2.1 (by decide),
   (create_atomic_on_failure cfg0 env0 st0 "").2.2 rfl,
   (create_atomic_on_failure cfg0 envPutFail st0 "AES128GCM").1 (by decide)⟩

/-! ## C2: codec round-trip and Create/Get consistency -/

/-- C2: encoding a handle and decoding the blob back under the same
master-key envelope AEAD yields a structurally equal handle; and after a
successful `Create(tag)`, `Get` on the returned identifier returns exactly
the created handle (hence matching algorithm set and key-version count). -/
theorem codec_roundtrip_create_get (c : KMSCtx) (env : StoreEnv)
    (s : KMSState) (kt : String) (t : KeyTemplate) (mk : String) (h : Handle)
    (ht : getKeyTemplate kt = .ok t)
    (hkg : env.keygenErr = false)
    (hput : env.putErr (mintID (s.gen + 1)) = false)
    (hget : env.getErr (mintID (s.gen + 1)) = false) :
    decode mk (encode mk h) = .ok h
    ∧ (Create c env s kt).res = .ok (mintID (s.gen + 1), (newHandle t s.gen).1)
    ∧ (Get c env (Create c env s kt).post (mintID (s.gen + 1))).res
        = .ok (newHandle t s.gen).1 := by
  have hk : kt ≠ "" := by
    intro h'
    rw [h'] at ht
    have h0 : getKeyTemplate "" = .error .unsupportedKeyType := rfl
    rw [h0] at ht
    exact Except.noConfusion ht
  refine ⟨by simp [decode, encode], ?_, ?_⟩
  · simp [Create, hk, ht, hkg, storeKeySet, newHandle, hput]
  · simp [Create, hk, ht, hkg, storeKeySet, newHandle, hput, Get, getKeySet,
      hget, insertB, lookupB, decode, encode]

/-- C2 witness: the round-trip and Create/Get consistency theorem applied
to the concrete tag `"AES128GCM"` over the empty state. -/
theorem codec_roundtrip_create_get_witness :
    decode "m" (encode "m" khA) = .ok khA
    ∧ (Create cfg0 env0 st0 "AES128GCM").res
        = .ok (mintID 1, (newHandle AES128GCMKeyTemplate 0).1)
    ∧ (Get cfg0 env0 (Create cfg0 env0 st0 "AES128GCM").post (mintID 1)).res
        = .ok (newHandle AES128GCMKeyTemplate 0).1 :=
  codec_roundtrip_create_get cfg0 env0 st0 "AES128GCM" AES128GCMKeyTemplate
    "m" khA rfl rfl rfl rfl

/-! ## C6: input validation order in Rotate -/

/-- C6 counterexample: on a state holding a keyset under `mintID 1`,
`Rotate` with the unrecognized tag `"unsupported"` performs a storage read
(the `get` event) before failing with the tag-validation error — so the
claim that an empty or unrecognized tag fails before any storage or
secret-lock call is false. -/
theorem rotate_reads_storage_before_tag_validation :
    (Rotate cfg0 env0 st1 "unsupported" (mintID 1)).events = [.get (mintID 1)]
    ∧ (Rotate cfg0 env0 st1 "unsupported" (mintID 1)).res
        = .error .unsupportedKeyType :=
  ⟨rfl, rfl⟩

/-- C6 (amended): `Rotate` validates the tag only after loading the
existing keyset (one storage read occurs first); with an empty or
unrecognized tag it then fails with an error before any storage mutation —
no delete and no write are performed and the state, including the old
keyset, is untouched. -/
theorem rotate_tag_validation_before_mutation (c : KMSCtx) (env : StoreEnv)
    (s : KMSState) (kt id : String)
    (ht : isErr (getKeyTemplate kt) = true) :
    isErr (Rotate c env s kt id).res = true
    ∧ (Rotate c env s kt id).post = s
    ∧ (Rotate c env s kt id).events.all (fun e => !isMutation e) = true := by
  have hev := getKeySet_events c env s id
  simp only [Rotate]
  cases hr : (getKeySet c env s id).res with
  | error e => simp [hr, isErr, hev, isMutation]
  | ok kh =>
    cases hgt : getKeyTemplate kt with
    | ok t => rw [hgt] at ht; simp [isErr] at ht
    | error e => simp [hr, hgt, isErr, hev, isMutation]

/-- C6 witness: the amended theorem applied at the concrete unrecognized
tag `"unsupported"` over a state holding one keyset. -/
theorem rotate_tag_validation_before_mutation_witness :
    isErr (Rotate cfg0 env0 st1 "unsupported" (mintID 1)).res = true
    ∧ (Rotate cfg0 env0 st1 "unsupported" (mintID 1)).post = st1
    ∧ (Rotate cfg0 env0 st1 "unsupported" (mintID 1)).events.all
        (fun e => !isMutation e) = true :=
  rotate_tag_validation_before_mutation cfg0 env0 st1 "unsupported"
    (mintID 1) rfl

/-! ## C1: rotation monotonicity -/

/-- C1: for a stored keyset id (minted earlier, per the never-reused
identifier invariant) and a supported tag, a successful `Rotate` returns a
fresh identifier different from the old one together with the updated
handle; afterwards `Get` on the old identifier fails with the not-found
error and `Get` on the new identifier succeeds, returning a handle with one
more key version than before rotation. -/
theorem rotate_monotonicity (c : KMSCtx) (env : StoreEnv) (s : KMSState)
    (kt id : String) (t : KeyTemplate) (kh : Handle)
    (hstored : lookupB s.store id = some (encode c.masterKeyURI kh))
    (hminted : ∃ m, m < s.gen ∧ id = mintID m)
    (ht : getKeyTemplate kt = .ok t)
    (hkg : env.keygenErr = false)
    (hget : env.getErr id = false)
    (hdel : env.delErr id = false)
    (hput : env.putErr (mintID (s.gen + 1)) = false)
    (hgetn : env.getErr (mintID (s.gen + 1)) = false) :
    (Rotate c env s kt id).res
      = .ok (mintID (s.gen + 1), (rotateHandle kh t s.gen).1)
    ∧ mintID (s.gen + 1) ≠ id
    ∧ (Get c env (Rotate c env s kt id).post id).res = .error .notFound
    ∧ (Get c env (Rotate c env s kt id).post (mintID (s.gen + 1))).res
        = .ok (rotateHandle kh t s.gen).1
    ∧ primitiveCount (rotateHandle kh t s.gen).1 = primitiveCount kh + 1 := by
  obtain ⟨m, hm, hid⟩ := hminted
  have hne : mintID (s.gen + 1) ≠ id := by
    rw [hid]
    intro he
    have := mintID_inj he
    omega
  have hKS : getKeySet c env s id = ⟨.ok kh, s, [.get id]⟩ := by
    simp [getKeySet, hget, hstored, decode, encode]
  have hrot : Rotate c env s kt id
      = ⟨.ok (mintID (s.gen + 1), (rotateHandle kh t s.gen).1),
         ⟨insertB (eraseB s.store id) (mintID (s.gen + 1))
            (encode c.masterKeyURI (rotateHandle kh t s.gen).1), s.gen + 2⟩,
         [.get id, .del id,
          .put (mintID (s.gen + 1))
            (encode c.masterKeyURI (rotateHandle kh t s.gen).1)]⟩ := by
    simp [Rotate, hKS, ht, hkg, hdel, storeKeySet, hput, rotateHandle]
  refine ⟨by rw [hrot], hne, ?_, ?_, ?_⟩
  · rw [hrot]
    have h1 : lookupB (eraseB (eraseB s.store id) (mintID (s.gen + 1))) id
        = lookupB (eraseB s.store id) id := lookupB_eraseB_ne _ hne
    simp [Get, getKeySet, hget, insertB, lookupB, hne, h1, lookupB_eraseB_self]
  · rw [hrot]
    simp [Get, getKeySet, hgetn, insertB, lookupB, decode, encode]
  · simp [primitiveCount, rotateHandle]

/-- C1 witness: the rotation monotonicity theorem applied over the concrete
state holding one AES-128-GCM keyset under `mintID 1`, rotated to
AES-256-GCM. -/
theorem rotate_monotonicity_witness :
    (Rotate cfg0 env0 st1 "AES256GCM" (mintID 1)).res
      = .ok (mintID (st1.gen + 1), (rotateHandle khA AES256GCMKeyTemplate st1.gen).1)
    ∧ mintID (st1.gen + 1) ≠ mintID 1
    ∧ (Get cfg0 env0 (Rotate cfg0 env0 st1 "AES256GCM" (mintID 1)).post
        (mintID 1)).res = .error .notFound
    ∧ (Get cfg0 env0 (Rotate cfg0 env0 st1 "AES256GCM" (mintID 1)).post
        (mintID (st1.gen + 1))).res
        = .ok (rotateHandle khA AES256GCMKeyTemplate st1.gen).1
    ∧ primitiveCount (rotateHandle khA AES256GCMKeyTemplate st1.gen).1
        = primitiveCount khA + 1 :=
  rotate_monotonicity cfg0 env0 st1 "AES256GCM" (mintID 1)
    AES256GCMKeyTemplate khA rfl ⟨1, by decide, rfl⟩ rfl rfl rfl rfl rfl rfl

/-! ## C5: Rotate is delete-then-write and not transactional -/

/-- C5: Rotate performs its storage effects in the order delete-old then
write-new (visible in the event trace), and is not transactional across the
two steps: when the delete succeeds and the subsequent write of the updated
handle fails, Rotate returns an error, the store has lost the old blob and
gained nothing, and `Get` on the old identifier fails with not-found — the
keyset is retrievable under no identifier. -/
theorem rotate_nontransactional (c : KMSCtx) (env : StoreEnv) (s : KMSState)
    (kt id : String) (t : KeyTemplate) (kh : Handle)
    (hstored : lookupB s.store id = some (encode c.masterKeyURI kh))
    (ht : getKeyTemplate kt = .ok t)
    (hkg : env.keygenErr = false)
    (hget : env.getErr id = false)
    (hdel : env.delErr id = false)
    (hput : env.putErr (mintID (s.gen + 1)) = true) :
    isErr (Rotate c env s kt id).res = true
    ∧ (Rotate c env s kt id).post.store = eraseB s.store id
    ∧ (Get c env (Rotate c env s kt id).post id).res = .error .notFound
    ∧ (Rotate c env s kt id).events
        = [.get id, .del id,
           .put (mintID (s.gen + 1))
             (encode c.masterKeyURI (rotateHandle kh t s.gen).1)] := by
  have hKS : getKeySet c env s id = ⟨.ok kh, s, [.get id]⟩ := by
    simp [getKeySet, hget, hstored, decode, encode]
  have hrot : Rotate c env s kt id
      = ⟨.error .storeWriteFailed, ⟨eraseB s.store id, s.gen + 2⟩,
         [.get id, .del id,
          .put (mintID (s.gen + 1))
            (encode c.masterKeyURI (rotateHandle kh t s.gen).1)]⟩ := by
    simp [Rotate, hKS, ht, hkg, hdel, storeKeySet, hput, rotateHandle]
  refine ⟨by rw [hrot]; rfl, by rw [hrot], ?_, by rw [hrot]⟩
  rw [hrot]
  simp [Get, getKeySet, hget, lookupB_eraseB_self]

/-- C5 witness: the non-transactionality theorem applied over the concrete
state holding one keyset under `mintID 1`, in an environment where every
storage write fails. -/
theorem rotate_nontransactional_witness :
    isErr (Rotate cfg0 envPutFail st1 "AES256GCM" (mintID 1)).res = true
    ∧ (Rotate cfg0 envPutFail st1 "AES256GCM" (mintID 1)).post.store
        = eraseB st1.store (mintID 1)
    ∧ (Get cfg0 envPutFail
        (Rotate cfg0 envPutFail st1 "AES256GCM" (mintID 1)).post
        (mintID 1)).res = .error .notFound
    ∧ (Rotate cfg0 envPutFail st1 "AES256GCM" (mintID 1)).events
        = [.get (mintID 1), .del (mintID 1),
           .put (mintID (st1.gen + 1))
             (encode cfg0.masterKeyURI
               (rotateHandle khA AES256GCMKeyTemplate st1.gen).1)] :=
  rotate_nontransactional cfg0 envPutFail st1 "AES256GCM" (mintID 1)
    AES256GCMKeyTemplate khA rfl rfl rfl rfl rfl rfl

/-! ## C10: Rotate stops when the delete fails -/

/-- C10: if the delete of the old blob fails during Rotate, the operation
returns the delete error and no identifier or handle, the store is exactly
as before, and the event trace contains no put — the encode-and-store step
is reached only after the delete succeeds. -/
theorem rotate_delete_failure (c : KMSCtx) (env : StoreEnv) (s : KMSState)
    (kt id : String) (t : KeyTemplate) (kh : Handle)
    (hstored : lookupB s.store id = some (encode c.masterKeyURI kh))
    (ht : getKeyTemplate kt = .ok t)
    (hkg : env.keygenErr = false)
    (hget : env.getErr id = false)
    (hdel : env.delErr id = true) :
    (Rotate c env s kt id).res = .error .storeDeleteFailed
    ∧ (Rotate c env s kt id).post.store = s.store
    ∧ (Rotate c env s kt id).events = [.get id, .del id] := by
  have hKS : getKeySet c env s id = ⟨.ok kh, s, [.get id]⟩ := by
    simp [getKeySet, hget, hstored, decode, encode]
  refine ⟨?_, ?_, ?_⟩ <;> simp [Rotate, hKS, ht, hkg, hdel, rotateHandle]

/-- C10 witness: the delete-failure theorem applied over the concrete state
holding one keyset under `mintID 1`, in an environment where every storage
delete fails. -/
theorem rotate_delete_failure_witness :
    (Rotate cfg0 envDelFail st1 "AES256GCM" (mintID 1)).res
      = .error .storeDeleteFailed
    ∧ (Rotate cfg0 envDelFail st1 "AES256GCM" (mintID 1)).post.store
        = st1.store
    ∧ (Rotate cfg0 envDelFail st1 "AES256GCM" (mintID 1)).events
        = [.get (mintID 1), .del (mintID 1)] :=
  rotate_delete_failure cfg0 envDelFail st1 "AES256GCM" (mintID 1)
    AES256GCMKeyTemplate khA rfl rfl rfl rfl rfl

/-! ## C7: Get distinguishes absence from corruption -/

/-- A state holding, under `mintID 0`, a blob sealed under a different
master key than `cfg0`'s. -/
def stWrongMaster : KMSState := ⟨[(mintID 0, ⟨"other-master", khA, true⟩)], 1⟩

/-- A state holding, under `mintID 0`, a blob whose seal no longer
verifies (a stored byte was flipped). -/
def stCorrupt : KMSState :=
  ⟨[(mintID 0, ⟨cfg0.masterKeyURI, khA, false⟩)], 1⟩

/-- C7: `Get` fails with the not-found error when no blob is stored under
the identifier, and with the distinct decryption-failure error — never
confused with not-found — when a blob exists but its seal does not verify
(corrupted bytes, or sealed under a different master key); in the
corruption case no key material is returned. -/
theorem get_absence_vs_corruption (c : KMSCtx) (env : StoreEnv)
    (s : KMSState) (id : String) (b : Blob)
    (hget : env.getErr id = false) :
    (lookupB s.store id = none → (Get c env s id).res = .error .notFound)
    ∧ (lookupB s.store id = some b →
        b.intact = false ∨ b.masterKey ≠ c.masterKeyURI →
        (Get c env s id).res = .error .decryptionFailed)
    ∧ KMSError.decryptionFailed ≠ KMSError.notFound := by
  refine ⟨?_, ?_, by decide⟩
  · intro hl
    simp [Get, getKeySet, hget, hl]
  · intro hl hb
    have hcond : ¬(b.intact = true ∧ b.masterKey = c.masterKeyURI) := by
      rcases hb with h | h
      · intro hc
        rw [hc.1] at h
        cases h
      · exact fun hc => h hc.2
    simp [Get, getKeySet, hget, hl, decode, hcond]

/-- C7 witness: the theorem applied to an absent identifier, to a blob
sealed under a different master key, and to a corrupted blob. -/
theorem get_absence_vs_corruption_witness :
    (Get cfg0 env0 st0 "absent").res = .error .notFound
    ∧ (Get cfg0 env0 stWrongMaster (mintID 0)).res = .error .decryptionFailed
    ∧ (Get cfg0 env0 stCorrupt (mintID 0)).res = .error .decryptionFailed :=
  ⟨(get_absence_vs_corruption cfg0 env0 st0 "absent"
      ⟨"x", khA, true⟩ rfl).1 rfl,
   (get_absence_vs_corruption cfg0 env0 stWrongMaster (mintID 0)
      ⟨"other-master", khA, true⟩ rfl).2.1 rfl (Or.inr (by decide)),
   (get_absence_vs_corruption cfg0 env0 stCorrupt (mintID 0)
      ⟨cfg0.masterKeyURI, khA, false⟩ rfl).2.1 rfl (Or.inl rfl)⟩

/-! ## C8: public-key export is asymmetric-only -/

/-- C8: for a keyset created from a symmetric (AEAD or MAC) tag,
`ExportPubKeyBytes` on its identifier fails with the non-asymmetric-key
error; for a keyset created from an asymmetric (ECDSA or EdDSA) tag it
succeeds, returning non-empty bytes that are the serialization of the
public projection of the handle — a structure from which all secret
material has been dropped. -/
theorem export_asymmetric_only (c : KMSCtx) (env : StoreEnv) (s : KMSState)
    (kt : String) (t : KeyTemplate)
    (ht : getKeyTemplate kt = .ok t)
    (hkg : env.keygenErr = false)
    (hput : env.putErr (mintID (s.gen + 1)) = false)
    (hget : env.getErr (mintID (s.gen + 1)) = false) :
    (isAsymmetricURL t.typeUrl = false →
      (ExportPubKeyBytes c env (Create c env s kt).post
        (mintID (s.gen + 1))).res = .error .notAsymmetricKey)
    ∧ (isAsymmetricURL t.typeUrl = true →
      (ExportPubKeyBytes c env (Create c env s kt).post
        (mintID (s.gen + 1))).res
          = .ok (serializePub (pubProject (newHandle t s.gen).1))
      ∧ serializePub (pubProject (newHandle t s.gen).1) ≠ []) := by
  have hk : kt ≠ "" := by
    intro h'
    rw [h'] at ht
    have h0 : getKeyTemplate "" = .error .unsupportedKeyType := rfl
    rw [h0] at ht
    exact Except.noConfusion ht
  have hpost : (Create c env s kt).post
      = ⟨insertB s.store (mintID (s.gen + 1))
           (encode c.masterKeyURI (newHandle t s.gen).1), s.gen + 2⟩ := by
    simp [Create, hk, ht, hkg, storeKeySet, newHandle, hput]
  constructor
  · intro ha
    rw [hpost]
    simp [ExportPubKeyBytes, getKeySet, hget, insertB, lookupB, decode,
      encode, publicHandle, newHandle, newVersion, ha]
  · intro ha
    rw [hpost]
    constructor
    · simp [ExportPubKeyBytes, getKeySet, hget, insertB, lookupB, decode,
        encode, publicHandle, newHandle, newVersion, ha]
    · simp [serializePub]

/-- C8 witness: the export theorem applied to a keyset created from the
symmetric tag `"AES128GCM"` and to one created from the asymmetric tag
`"ED25519"`. -/
theorem export_asymmetric_only_witness :
    (ExportPubKeyBytes cfg0 env0 (Create cfg0 env0 st0 "AES128GCM").post
      (mintID 1)).res = .error .notAsymmetricKey
    ∧ (ExportPubKeyBytes cfg0 env0 (Create cfg0 env0 st0 "ED25519").post
      (mintID 1)).res
        = .ok (serializePub (pubProject
            (newHandle ED25519KeyWithoutPrefixTemplate 0).1)) :=
  ⟨(export_asymmetric_only cfg0 env0 st0 "AES128GCM" AES128GCMKeyTemplate
      rfl rfl rfl rfl).1 rfl,
   ((export_asymmetric_only cfg0 env0 st0 "ED25519"
      ED25519KeyWithoutPrefixTemplate rfl rfl rfl rfl).2 rfl).1⟩
